import Mathlib

/-!
Verification of the WebSocket relay core of the floyd-app repository
(`server/src/services/esp8266Client.ts`: class `ESP8266Client`, and the
`WebSocketProxyHandler` class bundled in the same source file).

The embedding is a faithful translation of the TypeScript into pure Lean:
every mutable field of the two classes becomes a field of an explicit state
record, every method becomes a function from state to a result record that
carries the new state together with the observable effects of the call
(events emitted on the `EventEmitter`, transport writes, scheduled timers,
messages delivered to client sockets, the value returned to the caller).

JSON payloads are modelled flatly: the relay only ever discriminates on the
`type` and `action` string fields of a payload and otherwise treats it as an
opaque value, so a payload is a record of those two optional fields plus an
opaque `rest` string standing for the remainder of the object.
-/

namespace Floyd

/-- Connection configuration of `ESP8266Client` (interface `ESP8266Config`). -/
structure ESP8266Config where
  host : String
  port : Nat
  reconnectDelay : Nat
  maxReconnectAttempts : Nat
  connectionTimeout : Nat
deriving Repr, DecidableEq

/-- A message received from the upstream device, in the flat view described
above: `type` and `action` are the string fields the relay inspects
(`none` when the field is absent or not a string), `rest` is the opaque
remainder of the JSON object. -/
structure UpMsg where
  type : Option String := none
  action : Option String := none
  rest : String := ""
deriving Repr, DecidableEq

/-- The result of `JSON.parse` on an inbound client frame, in the flat view:
`isObject` is `typeof obj === "object" && obj !== null`, `action` is the
`action` field when it is a string, `timestamp` is the `timestamp` field when
it is a number, `rest` is the opaque remainder. -/
structure ClientCmd where
  isObject : Bool := true
  action : Option String := none
  timestamp : Option Nat := none
  rest : String := ""
deriving Repr, DecidableEq

/-- Events emitted by `ESP8266Client` on its `EventEmitter` interface. -/
inductive UpEvent where
  /-- the `connected` event -/
  | connected : UpEvent
  /-- the `disconnected` event emitted by `disconnect()` (no payload) -/
  | disconnectedClean : UpEvent
  /-- the `disconnected` event emitted by `handleDisconnection` with payload
  `\x7b code, reason \x7d` -/
  | disconnectedWith (code : Nat) (reason : String) : UpEvent
  /-- the `error` event; the string is the error's message -/
  | error (msg : String) : UpEvent
  /-- the `message` event carrying a parsed upstream payload -/
  | message (m : UpMsg) : UpEvent
  /-- the `maxReconnectAttemptsReached` event -/
  | maxReconnectAttemptsReached : UpEvent
deriving Repr, DecidableEq

/-- The mutable state of an `ESP8266Client` instance.  `wsPresent` models
`this.ws !== null` (listeners are attached exactly to that object);
the three `...TimerSet` booleans model whether the corresponding timer handle
is armed; `liveTransports` counts the transport-level connections that exist:
it is incremented where the code evaluates `new WebSocket(url)` and
decremented where a transport ends — `disconnect()` calls `ws.close()`, and
the `close` event itself reports a closed transport.  `handleConnectionError`
closes nothing: it only removes listeners and nulls `this.ws`, so there the
dropped socket's fate is decided by the environment (see its `abandonedDies`
argument), and "at most one upstream connection" is `liveTransports ≤ 1`. -/
structure ClientState where
  config : ESP8266Config
  wsPresent : Bool := false
  isConnected : Bool := false
  isConnecting : Bool := false
  reconnectAttempts : Nat := 0
  reconnectTimerSet : Bool := false
  connectionTimerSet : Bool := false
  pingTimerSet : Bool := false
  lastPingTime : Nat := 0
  liveTransports : Nat := 0
deriving Repr, DecidableEq

/-- Result of one `ESP8266Client` method call: the state after the call plus
its observable effects.  `transportsCreated` counts `new WebSocket`
evaluations performed by the call; `scheduledReconnect` is `some d` when the
call armed the reconnect timer with delay `d`; `wrote` is the object written
to the upstream transport, when any; `sendRet` is the boolean returned by
`sendCommand`, when the call is `sendCommand`. -/
structure StepResult where
  state : ClientState
  events : List UpEvent := []
  transportsCreated : Nat := 0
  scheduledReconnect : Option Nat := none
  wrote : Option ClientCmd := none
  sendRet : Option Bool := none
deriving Repr, DecidableEq

/-- Method `stopKeepAlive`: clears the ping interval. -/
def stopKeepAlive (s : ClientState) : ClientState :=
  { s with pingTimerSet := false }

/-- Method `attemptReconnect`: if `reconnectAttempts >= maxReconnectAttempts`
emit `maxReconnectAttemptsReached` and return; otherwise increment the
counter and arm the reconnect timer with delay `reconnectDelay`. -/
def attemptReconnect (s : ClientState) : StepResult :=
  if s.reconnectAttempts ≥ s.config.maxReconnectAttempts then
    { state := s, events := [UpEvent.maxReconnectAttemptsReached] }
  else
    { state := { s with reconnectAttempts := s.reconnectAttempts + 1,
                        reconnectTimerSet := true },
      scheduledReconnect := some s.config.reconnectDelay }

/-- Method `connect`: returns immediately when already connected or
connecting; otherwise sets `isConnecting`, evaluates `new WebSocket(url)`
(`ctorOk` tells whether the constructor succeeds; on failure the `catch`
block resets `isConnecting` and emits `error`), assigns it to `this.ws` and
arms the connection-timeout timer. -/
def connect (s : ClientState) (ctorOk : Bool) : StepResult :=
  if s.isConnected || s.isConnecting then { state := s }
  else if ctorOk then
    { state := { s with isConnecting := true, wsPresent := true,
                        connectionTimerSet := true,
                        liveTransports := s.liveTransports + 1 },
      transportsCreated := 1 }
  else
    { state := { s with isConnecting := false },
      events := [UpEvent.error "Failed to create ESP8266 connection"] }

/-- The `ws.on("open")` handler: clears the connection timer, marks the link
connected, resets `reconnectAttempts` to 0, starts keepalive
(`startKeepAlive` arms the ping interval and sets `lastPingTime` to now) and
emits `connected`. -/
def onOpen (s : ClientState) (now : Nat) : StepResult :=
  { state := { s with connectionTimerSet := false, isConnected := true,
                      isConnecting := false, reconnectAttempts := 0,
                      pingTimerSet := true, lastPingTime := now },
    events := [UpEvent.connected] }

/-- The `ws.on("message")` handler: `data = none` models a `JSON.parse`
failure (emits `error`); a `command_response` to `ping` only records
`lastPingTime` and is not emitted; every other payload is emitted as a
`message` event. -/
def clientOnMessage (s : ClientState) (data : Option UpMsg) (now : Nat) :
    StepResult :=
  match data with
  | none =>
      { state := s, events := [UpEvent.error "Invalid message format from ESP8266"] }
  | some m =>
      if m.type = some "command_response" ∧ m.action = some "ping" then
        { state := { s with lastPingTime := now } }
      else
        { state := s, events := [UpEvent.message m] }

/-- Method `handleConnectionError`: clears the connection timer, resets the
connected flags, removes the listeners and nulls `this.ws` — without calling
`close()` — then emits `error` and always calls `attemptReconnect`.  Because
the socket is dropped un-closed, whether its connection is (or ends up) dead
is not decided by this method: `abandonedDies = true` means the dropped
socket's connection is dead or its handshake never completes, `false` means
it is, or later becomes, a live connection that nothing ever closes. -/
def handleConnectionError (s : ClientState) (msg : String)
    (abandonedDies : Bool) : StepResult :=
  let s1 : ClientState :=
    { s with connectionTimerSet := false, isConnecting := false,
             isConnected := false, wsPresent := false,
             liveTransports := if s.wsPresent && abandonedDies then
                                 s.liveTransports - 1
                               else s.liveTransports }
  let r := attemptReconnect s1
  { r with events := UpEvent.error msg :: r.events }

/-- The state mutation performed by `handleDisconnection` before it emits:
clear the connected flags, stop keepalive, drop the transport. -/
def discTeardown (s : ClientState) : ClientState :=
  { s with isConnected := false, isConnecting := false, pingTimerSet := false,
           wsPresent := false,
           liveTransports := if s.wsPresent then s.liveTransports - 1
                             else s.liveTransports }

/-- The `ws.on("close")` handler `handleDisconnection(code, reason)`: tears
down the connection, emits `disconnected` with the close code and reason,
then calls `attemptReconnect` only for close codes 1006, 1011 and 1014. -/
def handleDisconnection (s : ClientState) (code : Nat) (reason : String) :
    StepResult :=
  let base := discTeardown s
  if code = 1006 ∨ code = 1011 ∨ code = 1014 then
    let r := attemptReconnect base
    { r with events := UpEvent.disconnectedWith code reason :: r.events }
  else
    { state := base, events := [UpEvent.disconnectedWith code reason] }

/-- Method `disconnect`: stops keepalive, cancels the reconnect and
connection timers, closes and drops the transport, resets all flags and
`reconnectAttempts`, and unconditionally emits `disconnected`. -/
def disconnect (s : ClientState) : StepResult :=
  { state := { s with pingTimerSet := false, reconnectTimerSet := false,
                      connectionTimerSet := false, wsPresent := false,
                      liveTransports := if s.wsPresent then s.liveTransports - 1
                                        else s.liveTransports,
                      isConnected := false, isConnecting := false,
                      reconnectAttempts := 0 },
    events := [UpEvent.disconnectedClean] }

/-- Method `sendCommand(command)`: returns `false` without writing when
`!this.isConnected || !this.ws`; otherwise writes
`\x7b ...command, timestamp: Date.now() \x7d` and returns `true`; when the
transport write throws (`writeOk = false`) the `catch` block emits `error`
and returns `false`, leaving every state field unchanged. -/
def sendCommand (s : ClientState) (cmd : ClientCmd) (now : Nat)
    (writeOk : Bool) : StepResult :=
  if !s.isConnected || !s.wsPresent then
    { state := s, sendRet := some false }
  else if writeOk then
    { state := s, wrote := some { cmd with timestamp := some now },
      sendRet := some true }
  else
    { state := s, events := [UpEvent.error "write failed"],
      sendRet := some false }

/-- Method `forceReconnect`, immediate part: calls `disconnect()` and arms a
1000 ms timer for the deferred part. -/
def forceReconnect (s : ClientState) : StepResult :=
  disconnect s

/-- Method `forceReconnect`, deferred part (the `setTimeout` callback): sets
`reconnectAttempts = 0` and then calls `connect()`. -/
def forceReconnectTimer (s : ClientState) (ctorOk : Bool) : StepResult :=
  connect { s with reconnectAttempts := 0 } ctorOk

/-- The `setInterval` body armed by `startKeepAlive`: while connected with a
live transport it sends a `ping` command (a stale `lastPingTime` only logs a
warning and changes nothing). -/
def pingTick (s : ClientState) (now : Nat) (writeOk : Bool) : StepResult :=
  if s.isConnected ∧ s.wsPresent then
    sendCommand s { action := some "ping" } now writeOk
  else
    { state := s }

/-- The environment events that can drive an `ESP8266Client` instance: its
public methods, the transport callbacks (which can only fire while the
listeners are attached, i.e. while `this.ws` is non-null) and its timer
callbacks (which can only fire while armed). -/
inductive UpOp where
  | connectReq (ctorOk : Bool) : UpOp
  | openEvt (now : Nat) : UpOp
  | messageEvt (data : Option UpMsg) (now : Nat) : UpOp
  | closeEvt (code : Nat) (reason : String) : UpOp
  | errorEvt (msg : String) (abandonedDies : Bool) : UpOp
  | disconnectReq : UpOp
  | sendReq (cmd : ClientCmd) (now : Nat) (writeOk : Bool) : UpOp
  | reconnectFire (ctorOk : Bool) : UpOp
  | connectTimeoutFire (abandonedDies : Bool) : UpOp
  | pingTimerFire (now : Nat) (writeOk : Bool) : UpOp
  | forceReconnectReq : UpOp
  | forceReconnectFire (ctorOk : Bool) : UpOp
deriving Repr, DecidableEq

/-- One environment step of an `ESP8266Client` instance. -/
def applyOp (s : ClientState) (op : UpOp) : StepResult :=
  match op with
  | UpOp.connectReq ok => connect s ok
  | UpOp.openEvt now => if s.wsPresent then onOpen s now else { state := s }
  | UpOp.messageEvt d now =>
      if s.wsPresent then clientOnMessage s d now else { state := s }
  | UpOp.closeEvt c r =>
      if s.wsPresent then handleDisconnection s c r else { state := s }
  | UpOp.errorEvt m dies =>
      if s.wsPresent then handleConnectionError s m dies else { state := s }
  | UpOp.disconnectReq => disconnect s
  | UpOp.sendReq c n w => sendCommand s c n w
  | UpOp.reconnectFire ok =>
      if s.reconnectTimerSet then
        connect { s with reconnectTimerSet := false } ok
      else { state := s }
  | UpOp.connectTimeoutFire dies =>
      if s.connectionTimerSet then
        handleConnectionError s "Connection timeout" dies
      else { state := s }
  | UpOp.pingTimerFire now w =>
      if s.pingTimerSet then pingTick s now w else { state := s }
  | UpOp.forceReconnectReq => forceReconnect s
  | UpOp.forceReconnectFire ok => forceReconnectTimer s ok

/-- The state of a fresh `ESP8266Client` instance. -/
def initState (cfg : ESP8266Config) : ClientState :=
  { config := cfg }

/-- Run a sequence of environment steps. -/
def runOps (s : ClientState) : List UpOp → ClientState
  | [] => s
  | op :: rest => runOps (applyOp s op).state rest

/-! ## The `WebSocketProxyHandler` class -/

/-- Interface `ClientInfo` from `types/index.ts`. -/
structure ClientInfo where
  id : String
  ip : String
  connectedAt : Nat
  lastPing : Option Nat := none
deriving Repr, DecidableEq

/-- One entry of the handler's `clients` map.  `socketOpen` models
`socket.readyState === WebSocket.OPEN`; `sendFails` models whether a
`socket.send` call on this transport throws; `pingIntervalSet` models the
per-client keepalive interval handle. -/
structure Session where
  socketOpen : Bool
  sendFails : Bool
  info : ClientInfo
  lastPing : Option Nat := none
  pingIntervalSet : Bool := true
deriving Repr, DecidableEq

/-- A message the handler sends to client sockets; one constructor per
object literal the TypeScript builds (constant fields such as
`source: "proxy_server"` or `success: true` are not repeated here). -/
inductive WireMsg where
  /-- the pong reply of `handleClientMessage` to a client `ping` command -/
  | pongResponse (ts : Nat) : WireMsg
  /-- the object built by `sendErrorToClient(socket, message, action?)` -/
  | errMsg (message : String) (action : Option String) (ts : Nat) : WireMsg
  /-- the object built by `sendConnectionStatus` from `getStatus()` -/
  | connStatus (connected connecting : Bool) (attempts : Nat) (ts : Nat) : WireMsg
  /-- the object built by `broadcastStatus(message)` -/
  | statusNote (message : String) (connected : Bool) (ts : Nat) : WireMsg
  /-- the object built by `broadcastError(message)` -/
  | errNote (message : String) (ts : Nat) : WireMsg
  /-- an upstream payload forwarded verbatim by `broadcastToClients` -/
  | upstream (m : UpMsg) : WireMsg
deriving Repr, DecidableEq

/-- whether a wire message is one of the two error-shaped objects -/
def WireMsg.isError : WireMsg → Bool
  | WireMsg.errMsg _ _ _ => true
  | WireMsg.errNote _ _ => true
  | _ => false

/-- The mutable state of a `WebSocketProxyHandler` instance: the `clients`
map (a JavaScript `Map`, i.e. an insertion-ordered association list with
unique keys) and `lastESP8266Data`. -/
structure ProxyState where
  clients : List (String × Session) := []
  lastESP8266Data : Option UpMsg := none
deriving Repr, DecidableEq

/-- `Map.prototype.get`. -/
def findSess : List (String × Session) → String → Option Session
  | [], _ => none
  | (k, v) :: rest, cid => if k = cid then some v else findSess rest cid

/-- `Map.prototype.set`: replaces in place when the key exists, otherwise
appends. -/
def mapSet : List (String × Session) → String → Session →
    List (String × Session)
  | [], k, v => [(k, v)]
  | (k0, v0) :: rest, k, v =>
      if k0 = k then (k, v) :: rest else (k0, v0) :: mapSet rest k v

/-- Method `sendToClient(socket, message)`: a no-op when the socket is not
open; a throwing `send` is caught and ignored.  The result is the list of
frames actually delivered on this socket (`[message]` or `[]`). -/
def sendToClient (sess : Session) (m : WireMsg) : List WireMsg :=
  if sess.socketOpen ∧ ¬sess.sendFails then [m] else []

/-- Method `handleClientDisconnection(clientId)`: clears the session's ping
interval and deletes it from the map; a no-op when the id is absent. -/
def handleClientDisconnection (ps : ProxyState) (cid : String) : ProxyState :=
  { ps with clients := ps.clients.filter (fun p => p.1 ≠ cid) }

/-- The `clients.forEach` loop of `broadcastToClients`, left to right:
returns the deliveries made (socket open, write did not throw), the
`successCount` accumulated, and the `clientsToRemove` list (socket not open,
or write threw). -/
def broadcastLoop (m : WireMsg) :
    List (String × Session) → List (String × WireMsg) × Nat × List String
  | [] => ([], 0, [])
  | (cid, sess) :: rest =>
      let r := broadcastLoop m rest
      if sess.socketOpen then
        if sess.sendFails then (r.1, r.2.1, cid :: r.2.2)
        else ((cid, m) :: r.1, r.2.1 + 1, r.2.2)
      else (r.1, r.2.1, cid :: r.2.2)

/-- Result of `broadcastToClients`: the handler state afterwards, the frames
delivered (paired with the receiving session's id), the `successCount` the
code computes and logs, and `returned`, the value the method returns to its
caller — the TypeScript signature is `private broadcastToClients(message:
any): void`, so this is always `none`. -/
structure BroadcastResult where
  state : ProxyState
  delivered : List (String × WireMsg) := []
  successCount : Nat := 0
  returned : Option Nat := none
deriving Repr, DecidableEq

/-- Method `broadcastToClients(message)`: returns at once when the map is
empty; otherwise iterates every session attempting delivery, collecting
failed ids, and only after the iteration removes the collected sessions via
`handleClientDisconnection`. -/
def broadcastToClients (ps : ProxyState) (m : WireMsg) : BroadcastResult :=
  if ps.clients.isEmpty then { state := ps }
  else
    let r := broadcastLoop m ps.clients
    { state := r.2.2.foldl handleClientDisconnection ps,
      delivered := r.1, successCount := r.2.1 }

/-- Method `getClientsInfo()`: a copy of each session's `info`. -/
def getClientsInfo (ps : ProxyState) : List ClientInfo :=
  ps.clients.map (fun p => p.2.info)

/-- Method `sendConnectionStatus(socket)` builds its status object from
`esp8266Client.getStatus()`. -/
def sendConnectionStatus (esp : ClientState) (now : Nat) : WireMsg :=
  WireMsg.connStatus esp.isConnected esp.isConnecting esp.reconnectAttempts now

/-- Method `handleConnection(socket, request)`: registers a fresh session
(id generated by `uuidv4`, modelled as the `cid` argument; `socketOpen` and
`sendFails` describe the new socket), arms its keepalive interval, then
sends it the connection status and, if `lastESP8266Data` is set, that stored
payload.  Returns the new handler state and the frames delivered to the new
socket, in order. -/
def handleConnection (ps : ProxyState) (esp : ClientState) (cid ip : String)
    (socketOpen sendFails : Bool) (now : Nat) :
    ProxyState × List WireMsg :=
  let info : ClientInfo := { id := cid, ip := ip, connectedAt := now }
  let sess : Session :=
    { socketOpen := socketOpen, sendFails := sendFails, info := info,
      lastPing := some now, pingIntervalSet := true }
  let ps1 : ProxyState := { ps with clients := mapSet ps.clients cid sess }
  let s1 := sendToClient sess (sendConnectionStatus esp now)
  let s2 :=
    match ps1.lastESP8266Data with
    | some d => sendToClient sess (WireMsg.upstream d)
    | none => []
  (ps1, s1 ++ s2)

/-- The type guard `isValidCommand` from `types/index.ts`: a non-null object
whose `action` field is one of the four recognized action strings. -/
def isValidCommand (c : ClientCmd) : Bool :=
  c.isObject &&
    match c.action with
    | some a =>
        a = "toggle_relay" || a = "get_sensors" ||
        a = "set_sensor_interval" || a = "ping"
    | none => false

/-- Result of handling one inbound client frame: the handler and upstream
states afterwards, the frames delivered to client sockets (tagged with the
receiving session's id), the events the upstream client emitted during the
call, and the object written to the upstream transport, when any. -/
structure MsgResult where
  proxy : ProxyState
  esp : ClientState
  sends : List (String × WireMsg) := []
  espEvents : List UpEvent := []
  wrote : Option ClientCmd := none
deriving Repr, DecidableEq

/-- tag every frame delivered on one socket with that session's id -/
def tagSends (cid : String) (ms : List WireMsg) : List (String × WireMsg) :=
  ms.map (fun m => (cid, m))

/-- Method `forwardCommandToESP8266(command, fromClientId)`: when
`getStatus().isConnected` is false, reply `ESP8266 not connected` to the
sender only, touching neither the upstream transport nor the upstream
client; otherwise call `sendCommand` and, when it returns false, reply
`Failed to send command to ESP8266` to the sender only. -/
def forwardCommandToESP8266 (ps : ProxyState) (esp : ClientState)
    (cmd : ClientCmd) (fromCid : String) (now : Nat) (writeOk : Bool) :
    MsgResult :=
  if esp.isConnected = false then
    match findSess ps.clients fromCid with
    | some sess =>
        { proxy := ps, esp := esp,
          sends := tagSends fromCid
            (sendToClient sess (WireMsg.errMsg "ESP8266 not connected" cmd.action now)) }
    | none => { proxy := ps, esp := esp }
  else
    let r := sendCommand esp cmd now writeOk
    if r.sendRet = some true then
      { proxy := ps, esp := r.state, espEvents := r.events, wrote := r.wrote }
    else
      match findSess ps.clients fromCid with
      | some sess =>
          { proxy := ps, esp := r.state, espEvents := r.events,
            wrote := r.wrote,
            sends := tagSends fromCid
              (sendToClient sess
                (WireMsg.errMsg "Failed to send command to ESP8266" cmd.action now)) }
      | none =>
          { proxy := ps, esp := r.state, espEvents := r.events, wrote := r.wrote }

/-- Method `handleClientMessage(clientId, data)`: a no-op for an
unregistered id; `data = none` models a `JSON.parse` failure (reply
`Invalid JSON format` to the sender); a `ping` action is answered directly
with a pong response and never forwarded; an invalid command is answered
with `Invalid command format`; a valid command updates the sender's
`lastPing` bookkeeping and is forwarded via `forwardCommandToESP8266`. -/
def handleClientMessage (ps : ProxyState) (esp : ClientState) (cid : String)
    (data : Option ClientCmd) (now : Nat) (writeOk : Bool) : MsgResult :=
  match findSess ps.clients cid with
  | none => { proxy := ps, esp := esp }
  | some sess =>
      match data with
      | none =>
          { proxy := ps, esp := esp,
            sends := tagSends cid
              (sendToClient sess (WireMsg.errMsg "Invalid JSON format" none now)) }
      | some cmd =>
          if cmd.action = some "ping" then
            let sess' : Session :=
              { sess with lastPing := some now,
                          info := { sess.info with lastPing := some now } }
            { proxy := { ps with clients := mapSet ps.clients cid sess' },
              esp := esp,
              sends := tagSends cid
                (sendToClient sess' (WireMsg.pongResponse now)) }
          else if isValidCommand cmd = false then
            { proxy := ps, esp := esp,
              sends := tagSends cid
                (sendToClient sess
                  (WireMsg.errMsg "Invalid command format" cmd.action now)) }
          else
            let sess' : Session :=
              { sess with info := { sess.info with lastPing := some now } }
            let ps' : ProxyState :=
              { ps with clients := mapSet ps.clients cid sess' }
            forwardCommandToESP8266 ps' esp cmd cid now writeOk

/-- whether an upstream payload is filtered by the handler's `message`
listener as a liveness acknowledgment -/
def isLivenessAck (m : UpMsg) : Bool :=
  m.type = some "pong" ∨ (m.type = some "command_response" ∧ m.action = some "ping")

/-- The handler's `esp8266Client.on("message")` listener: stores the payload
in `lastESP8266Data`, then returns without broadcasting when it is a
liveness acknowledgment, and otherwise broadcasts it verbatim. -/
def onEspMessage (ps : ProxyState) (m : UpMsg) : BroadcastResult :=
  let ps1 : ProxyState := { ps with lastESP8266Data := some m }
  if isLivenessAck m then { state := ps1 }
  else broadcastToClients ps1 (WireMsg.upstream m)

/-- The handler's `esp8266Client.on("connected")` listener:
`broadcastStatus("ESP8266 connected")`. -/
def onEspConnected (ps : ProxyState) (esp : ClientState) (now : Nat) :
    BroadcastResult :=
  broadcastToClients ps (WireMsg.statusNote "ESP8266 connected" esp.isConnected now)

/-- The handler's `esp8266Client.on("disconnected")` listener:
`broadcastError("ESP8266 disconnected")`. -/
def onEspDisconnected (ps : ProxyState) (now : Nat) : BroadcastResult :=
  broadcastToClients ps (WireMsg.errNote "ESP8266 disconnected" now)

/-- The handler's `esp8266Client.on("maxReconnectAttemptsReached")`
listener. -/
def onEspMaxReached (ps : ProxyState) (now : Nat) : BroadcastResult :=
  broadcastToClients ps
    (WireMsg.errNote "ESP8266 connection failed - max reconnect attempts reached" now)

/-! ## Auxiliary predicates and concrete fixtures -/

/-- the branch condition of the `broadcastToClients` loop: the session's
socket is open and its `send` does not throw -/
def liveSess (p : String × Session) : Bool :=
  p.2.socketOpen && !p.2.sendFails

/-- The reachable-state invariant of an `ESP8266Client` instance that holds
on every run: an owned transport (`this.ws` non-null) implies the link is
connected or connecting, a connected link owns a transport, and the
reconnect counter is bounded by the configured maximum. -/
def GoodState (s : ClientState) : Prop :=
  (s.wsPresent = true → (s.isConnected = true ∨ s.isConnecting = true)) ∧
  (s.isConnected = true → s.wsPresent = true) ∧
  s.reconnectAttempts ≤ s.config.maxReconnectAttempts

/-- The transport-count invariant: the number of live transport-level
connections agrees with `this.ws`.  Unlike `GoodState` this is NOT preserved
on every run: `handleConnectionError` drops its socket without closing it,
and an abandoned handshake that completes leaves a live connection the count
of which exceeds what `this.ws` accounts for. -/
def TransportCount (s : ClientState) : Prop :=
  s.liveTransports = (if s.wsPresent = true then 1 else 0)

/-- whether an environment step resolves every socket it abandons as dead:
the error and connect-timeout events pass their `abandonedDies` flag to
`handleConnectionError`, every other step abandons nothing -/
def opClean : UpOp → Bool
  | UpOp.errorEvt _ dies => dies
  | UpOp.connectTimeoutFire dies => dies
  | _ => true

/-- the default configuration from `types/index.ts` -/
def cfgEx : ESP8266Config :=
  { host := "172.17.170.11", port := 81, reconnectDelay := 3000,
    maxReconnectAttempts := 5, connectionTimeout := 10000 }

/-- session info fixture -/
def infoOf (i : String) : ClientInfo :=
  { id := i, ip := "10.0.0.1", connectedAt := 0 }

/-- an open, healthy client session -/
def openSess (i : String) : Session :=
  { socketOpen := true, sendFails := false, info := infoOf i }

/-- a session whose socket is no longer open -/
def closedSess (i : String) : Session :=
  { socketOpen := false, sendFails := false, info := infoOf i }

/-- a sensor-data payload fixture -/
def sensorMsg : UpMsg :=
  { type := some "sensor_data", rest := "temperature 24.5" }

/-- a pong payload, i.e. a liveness acknowledgment -/
def pongMsg : UpMsg := { type := some "pong" }

/-- a `command_response` payload answering a `ping` -/
def cmdRespPing : UpMsg :=
  { type := some "command_response", action := some "ping" }

/-- handler state fixture: one open client, a stored sensor payload -/
def psC6 : ProxyState :=
  { clients := [("a", openSess "a")], lastESP8266Data := some sensorMsg }

/-- handler state fixture: five sessions, two of them with closed sockets -/
def psC9 : ProxyState :=
  { clients := [("a", openSess "a"), ("b", closedSess "b"), ("c", openSess "c"),
                ("d", closedSess "d"), ("e", openSess "e")] }

/-- handler state fixture: two open sessions `A` and `B` -/
def psAB : ProxyState :=
  { clients := [("A", openSess "A"), ("B", openSess "B")] }

/-- an upstream client that is connected -/
def espConnSt : ClientState :=
  { config := cfgEx, wsPresent := true, isConnected := true,
    pingTimerSet := true, liveTransports := 1 }

/-- an upstream client that is disconnected (fresh) -/
def espDiscSt : ClientState := { config := cfgEx }

/-- an upstream client that is mid-connect -/
def espConnectingSt : ClientState :=
  { config := cfgEx, wsPresent := true, isConnecting := true,
    connectionTimerSet := true, liveTransports := 1 }

/-- a disconnected upstream client with two reconnect attempts spent -/
def espAtt2 : ClientState := { config := cfgEx, reconnectAttempts := 2 }

/-- a disconnected upstream client with its reconnect budget exhausted -/
def espAtt5 : ClientState := { config := cfgEx, reconnectAttempts := 5 }

/-- a valid command fixture -/
def cmdToggle : ClientCmd := { action := some "toggle_relay" }

/-- a command with an unrecognized action -/
def cmdBad : ClientCmd := { action := some "feed_now" }

/-- a ping command fixture -/
def cmdPing : ClientCmd := { action := some "ping" }

/-- an event sequence that leaks a transport: a connect request, the connect
timeout firing while the abandoned socket's handshake later completes
(`abandonedDies := false`), then the scheduled reconnect firing -/
def leakOps : List UpOp :=
  [UpOp.connectReq true, UpOp.connectTimeoutFire false, UpOp.reconnectFire true]

/-! ## Helper lemmas -/

theorem findSess_mem (l : List (String × Session)) (cid : String)
    (sess : Session) (h : findSess l cid = some sess) : (cid, sess) ∈ l := by
  induction l with
  | nil => simp [findSess] at h
  | cons hd tl ih =>
      obtain ⟨k, v⟩ := hd
      by_cases hk : k = cid
      · subst hk
        simp [findSess] at h
        subst h
        exact List.mem_cons_self _ _
      · simp [findSess, hk] at h
        exact List.mem_cons_of_mem _ (ih h)

theorem findSess_mapSet_self (l : List (String × Session)) (k : String)
    (v : Session) : findSess (mapSet l k v) k = some v := by
  induction l with
  | nil => simp [mapSet, findSess]
  | cons hd tl ih =>
      obtain ⟨k0, v0⟩ := hd
      by_cases hk : k0 = k
      · simp [mapSet, hk, findSess]
      · simp [mapSet, hk, findSess, ih]

theorem findSess_mapSet_ne (l : List (String × Session)) (k k2 : String)
    (v : Session) (h : k2 ≠ k) :
    findSess (mapSet l k v) k2 = findSess l k2 := by
  have hne : ¬ (k = k2) := fun hh => h hh.symm
  induction l with
  | nil => simp only [mapSet, findSess, if_neg hne]
  | cons hd tl ih =>
      obtain ⟨k0, v0⟩ := hd
      by_cases hk : k0 = k
      · subst hk
        simp only [mapSet, if_pos rfl, findSess, if_neg hne]
      · simp only [mapSet, if_neg hk, findSess, ih]

theorem broadcastLoop_spec (m : WireMsg) (l : List (String × Session)) :
    broadcastLoop m l =
      ((l.filter liveSess).map (fun p => (p.1, m)),
       (l.filter liveSess).length,
       (l.filter (fun p => !liveSess p)).map Prod.fst) := by
  induction l with
  | nil => rfl
  | cons hd tl ih =>
      obtain ⟨cid, sess⟩ := hd
      by_cases ho : sess.socketOpen <;> by_cases hf : sess.sendFails <;>
        simp [broadcastLoop, ih, liveSess, ho, hf]

theorem foldl_removal (rem : List String) (ps : ProxyState) :
    (rem.foldl handleClientDisconnection ps).clients =
      ps.clients.filter (fun p => !rem.contains p.1) := by
  induction rem generalizing ps with
  | nil => simp
  | cons c cs ih =>
      simp only [List.foldl_cons, ih, handleClientDisconnection]
      rw [List.filter_filter]
      apply List.filter_congr
      intro p _
      by_cases h : p.1 = c <;> simp [h, List.contains_cons]

theorem keys_inj {l : List (String × Session)}
    (hnd : (l.map Prod.fst).Nodup) {p q : String × Session}
    (hp : p ∈ l) (hq : q ∈ l) (hk : p.1 = q.1) : p = q := by
  induction l with
  | nil => simp at hp
  | cons hd tl ih =>
      simp only [List.map_cons, List.nodup_cons] at hnd
      rcases List.mem_cons.mp hp with h1 | h1 <;>
        rcases List.mem_cons.mp hq with h2 | h2
      · rw [h1, h2]
      · exfalso
        apply hnd.1
        have hm : q.1 ∈ tl.map Prod.fst := List.mem_map.mpr ⟨q, h2, rfl⟩
        rw [← hk, h1] at hm
        exact hm
      · exfalso
        apply hnd.1
        have hm : p.1 ∈ tl.map Prod.fst := List.mem_map.mpr ⟨p, h1, rfl⟩
        rw [hk, h2] at hm
        exact hm
      · exact ih hnd.2 h1 h2

theorem broadcast_delivered (ps : ProxyState) (m : WireMsg) :
    (broadcastToClients ps m).delivered =
      (ps.clients.filter liveSess).map (fun p => (p.1, m)) := by
  unfold broadcastToClients
  by_cases he : ps.clients.isEmpty
  · rw [List.isEmpty_iff] at he
    simp [he]
  · simp [he, broadcastLoop_spec]

theorem broadcast_count (ps : ProxyState) (m : WireMsg) :
    (broadcastToClients ps m).successCount =
      (ps.clients.filter liveSess).length := by
  unfold broadcastToClients
  by_cases he : ps.clients.isEmpty
  · rw [List.isEmpty_iff] at he
    simp [he]
  · simp [he, broadcastLoop_spec]

theorem broadcast_returned (ps : ProxyState) (m : WireMsg) :
    (broadcastToClients ps m).returned = none := by
  unfold broadcastToClients
  by_cases he : ps.clients.isEmpty <;> simp [he]

theorem foldl_removal_lastData (rem : List String) (ps : ProxyState) :
    (rem.foldl handleClientDisconnection ps).lastESP8266Data =
      ps.lastESP8266Data := by
  induction rem generalizing ps with
  | nil => rfl
  | cons c cs ih => exact ih _

theorem broadcast_lastData (ps : ProxyState) (m : WireMsg) :
    (broadcastToClients ps m).state.lastESP8266Data = ps.lastESP8266Data := by
  unfold broadcastToClients
  by_cases he : ps.clients.isEmpty
  · simp [he]
  · rw [if_neg he]
    exact foldl_removal_lastData _ _

theorem broadcast_state_clients (ps : ProxyState) (m : WireMsg)
    (hnd : (ps.clients.map Prod.fst).Nodup) :
    (broadcastToClients ps m).state.clients = ps.clients.filter liveSess := by
  unfold broadcastToClients
  by_cases he : ps.clients.isEmpty
  · rw [List.isEmpty_iff] at he
    simp [he]
  · rw [if_neg he]
    simp only [broadcastLoop_spec, foldl_removal]
    apply List.filter_congr
    intro p hp
    by_cases hlive : liveSess p = true
    · rw [hlive]
      rw [Bool.not_eq_true']
      rw [Bool.eq_false_iff]
      intro hc
      have hmem : p.1 ∈ (ps.clients.filter (fun q => !liveSess q)).map Prod.fst :=
        List.elem_iff.mp hc
      rw [List.mem_map] at hmem
      obtain ⟨q, hq, hqk⟩ := hmem
      rw [List.mem_filter] at hq
      have hpq : p = q := keys_inj hnd hp hq.1 hqk.symm
      rw [← hpq] at hq
      rw [hlive] at hq
      simp at hq
    · rw [Bool.not_eq_true] at hlive
      rw [hlive]
      have hmem : p.1 ∈ (ps.clients.filter (fun q => !liveSess q)).map Prod.fst := by
        refine List.mem_map.mpr ⟨p, ?_, rfl⟩
        rw [List.mem_filter]
        exact ⟨hp, by rw [hlive]; rfl⟩
      rw [Bool.not_eq_false']
      exact List.elem_iff.mpr hmem

theorem sendCommand_state (s : ClientState) (cmd : ClientCmd) (now : Nat)
    (w : Bool) : (sendCommand s cmd now w).state = s := by
  unfold sendCommand
  split
  · rfl
  · split <;> rfl
theorem attemptReconnect_good {s : ClientState} (h : GoodState s) :
    GoodState (attemptReconnect s).state := by
  obtain ⟨h1, h2, h3⟩ := h
  unfold attemptReconnect
  split
  · exact ⟨h1, h2, h3⟩
  · rename_i hlt
    refine ⟨h1, h2, ?_⟩
    show s.reconnectAttempts + 1 ≤ s.config.maxReconnectAttempts
    omega

theorem attemptReconnect_count {s : ClientState} (hc : TransportCount s) :
    TransportCount (attemptReconnect s).state := by
  unfold attemptReconnect
  split
  · exact hc
  · exact hc

theorem connect_wsFalse {s : ClientState} (h : GoodState s)
    (hguard : ¬(s.isConnected || s.isConnecting) = true) :
    s.wsPresent = false := by
  obtain ⟨h1, _, _⟩ := h
  simp only [Bool.or_eq_true, not_or, Bool.not_eq_true] at hguard
  cases hws : s.wsPresent with
  | false => rfl
  | true =>
      rcases h1 hws with hc | hc
      · exact absurd (hguard.1.symm.trans hc) Bool.false_ne_true
      · exact absurd (hguard.2.symm.trans hc) Bool.false_ne_true

theorem connect_good {s : ClientState} (h : GoodState s) (ok : Bool) :
    GoodState (connect s ok).state := by
  obtain ⟨h1, h2, h3⟩ := h
  unfold connect
  split
  · exact ⟨h1, h2, h3⟩
  · rename_i hguard
    have hws : s.wsPresent = false := connect_wsFalse ⟨h1, h2, h3⟩ hguard
    simp only [Bool.or_eq_true, not_or, Bool.not_eq_true] at hguard
    split
    · exact ⟨fun _ => Or.inr rfl, fun _ => rfl, h3⟩
    · refine ⟨?_, ?_, h3⟩
      · exact fun hw => absurd (hws.symm.trans hw) Bool.false_ne_true
      · exact fun hc => absurd (hguard.1.symm.trans hc) Bool.false_ne_true

theorem connect_count {s : ClientState} (h : GoodState s)
    (hc : TransportCount s) (ok : Bool) :
    TransportCount (connect s ok).state := by
  unfold connect
  split
  · exact hc
  · rename_i hguard
    have hws : s.wsPresent = false := connect_wsFalse ⟨h.1, h.2.1, h.2.2⟩ hguard
    have hlive : s.liveTransports = 0 := by rw [hc, hws]; rfl
    split
    · show s.liveTransports + 1 = if true = true then 1 else 0
      rw [hlive]
      simp
    · exact hc

theorem onOpen_good {s : ClientState} (hws : s.wsPresent = true) (now : Nat) :
    GoodState (onOpen s now).state :=
  ⟨fun _ => Or.inl rfl, fun _ => hws, Nat.zero_le _⟩

theorem onOpen_count {s : ClientState} (hc : TransportCount s) (now : Nat) :
    TransportCount (onOpen s now).state := hc

theorem teardown_live {s : ClientState} (h1 : s.liveTransports =
    (if s.wsPresent = true then 1 else 0)) :
    (if s.wsPresent = true then s.liveTransports - 1 else s.liveTransports) = 0 := by
  cases hws : s.wsPresent <;> simp [hws] at h1 <;> simp [h1]

theorem discTeardown_good {s : ClientState} (h : GoodState s) :
    GoodState (discTeardown s) := by
  obtain ⟨_, _, h3⟩ := h
  unfold discTeardown
  refine ⟨?_, ?_, h3⟩
  · intro hw
    exact absurd hw (by simp)
  · intro hc
    exact absurd hc (by simp)

theorem discTeardown_count {s : ClientState} (hc : TransportCount s) :
    TransportCount (discTeardown s) := by
  unfold discTeardown
  show (if s.wsPresent = true then s.liveTransports - 1 else s.liveTransports) =
    if false = true then 1 else 0
  rw [teardown_live hc]
  simp

theorem handleConnectionError_good {s : ClientState} (h : GoodState s)
    (msg : String) (dies : Bool) :
    GoodState (handleConnectionError s msg dies).state := by
  obtain ⟨_, _, h3⟩ := h
  show GoodState (attemptReconnect
    { s with connectionTimerSet := false, isConnecting := false,
             isConnected := false, wsPresent := false,
             liveTransports := if s.wsPresent && dies then
                                 s.liveTransports - 1
                               else s.liveTransports }).state
  apply attemptReconnect_good
  refine ⟨?_, ?_, h3⟩
  · intro hw
    exact absurd hw (by simp)
  · intro hc
    exact absurd hc (by simp)

theorem handleConnectionError_count {s : ClientState} (hc : TransportCount s)
    (msg : String) :
    TransportCount (handleConnectionError s msg true).state := by
  show TransportCount (attemptReconnect
    { s with connectionTimerSet := false, isConnecting := false,
             isConnected := false, wsPresent := false,
             liveTransports := if s.wsPresent && true then
                                 s.liveTransports - 1
                               else s.liveTransports }).state
  apply attemptReconnect_count
  show (if (s.wsPresent && true) = true then s.liveTransports - 1
        else s.liveTransports) = if false = true then 1 else 0
  rw [Bool.and_true]
  rw [teardown_live hc]
  simp

theorem handleDisconnection_good {s : ClientState} (h : GoodState s)
    (code : Nat) (reason : String) :
    GoodState (handleDisconnection s code reason).state := by
  by_cases hcode : code = 1006 ∨ code = 1011 ∨ code = 1014
  · show GoodState (if code = 1006 ∨ code = 1011 ∨ code = 1014 then
        { attemptReconnect (discTeardown s) with
          events := UpEvent.disconnectedWith code reason ::
            (attemptReconnect (discTeardown s)).events }
      else ({ state := discTeardown s,
              events := [UpEvent.disconnectedWith code reason] } : StepResult)).state
    rw [if_pos hcode]
    exact attemptReconnect_good (discTeardown_good h)
  · show GoodState (if code = 1006 ∨ code = 1011 ∨ code = 1014 then
        { attemptReconnect (discTeardown s) with
          events := UpEvent.disconnectedWith code reason ::
            (attemptReconnect (discTeardown s)).events }
      else ({ state := discTeardown s,
              events := [UpEvent.disconnectedWith code reason] } : StepResult)).state
    rw [if_neg hcode]
    exact discTeardown_good h

theorem handleDisconnection_count {s : ClientState} (hc : TransportCount s)
    (code : Nat) (reason : String) :
    TransportCount (handleDisconnection s code reason).state := by
  by_cases hcode : code = 1006 ∨ code = 1011 ∨ code = 1014
  · show TransportCount (if code = 1006 ∨ code = 1011 ∨ code = 1014 then
        { attemptReconnect (discTeardown s) with
          events := UpEvent.disconnectedWith code reason ::
            (attemptReconnect (discTeardown s)).events }
      else ({ state := discTeardown s,
              events := [UpEvent.disconnectedWith code reason] } : StepResult)).state
    rw [if_pos hcode]
    exact attemptReconnect_count (discTeardown_count hc)
  · show TransportCount (if code = 1006 ∨ code = 1011 ∨ code = 1014 then
        { attemptReconnect (discTeardown s) with
          events := UpEvent.disconnectedWith code reason ::
            (attemptReconnect (discTeardown s)).events }
      else ({ state := discTeardown s,
              events := [UpEvent.disconnectedWith code reason] } : StepResult)).state
    rw [if_neg hcode]
    exact discTeardown_count hc

theorem disconnect_good {s : ClientState} :
    GoodState (disconnect s).state := by
  unfold disconnect
  refine ⟨?_, ?_, Nat.zero_le _⟩
  · intro hw
    exact absurd hw (by simp)
  · intro hc
    exact absurd hc (by simp)

theorem disconnect_count {s : ClientState} (hc : TransportCount s) :
    TransportCount (disconnect s).state := by
  unfold disconnect
  show (if s.wsPresent = true then s.liveTransports - 1 else s.liveTransports) =
    if false = true then 1 else 0
  rw [teardown_live hc]
  simp

theorem clientOnMessage_good {s : ClientState} (h : GoodState s)
    (data : Option UpMsg) (now : Nat) :
    GoodState (clientOnMessage s data now).state := by
  obtain ⟨h1, h2, h3⟩ := h
  cases data with
  | none => exact ⟨h1, h2, h3⟩
  | some m =>
      show GoodState ((if m.type = some "command_response" ∧ m.action = some "ping"
        then ({ state := { s with lastPingTime := now } } : StepResult)
        else { state := s, events := [UpEvent.message m] }).state)
      by_cases hc : m.type = some "command_response" ∧ m.action = some "ping"
      · rw [if_pos hc]
        exact ⟨h1, h2, h3⟩
      · rw [if_neg hc]
        exact ⟨h1, h2, h3⟩

theorem clientOnMessage_count {s : ClientState} (hc : TransportCount s)
    (data : Option UpMsg) (now : Nat) :
    TransportCount (clientOnMessage s data now).state := by
  cases data with
  | none => exact hc
  | some m =>
      show TransportCount ((if m.type = some "command_response" ∧ m.action = some "ping"
        then ({ state := { s with lastPingTime := now } } : StepResult)
        else { state := s, events := [UpEvent.message m] }).state)
      by_cases hm : m.type = some "command_response" ∧ m.action = some "ping"
      · rw [if_pos hm]
        exact hc
      · rw [if_neg hm]
        exact hc

theorem pingTick_good {s : ClientState} (h : GoodState s) (now : Nat)
    (w : Bool) : GoodState (pingTick s now w).state := by
  unfold pingTick
  by_cases hc : s.isConnected = true ∧ s.wsPresent = true
  · rw [if_pos hc, sendCommand_state]
    exact h
  · rw [if_neg hc]
    exact h

theorem pingTick_count {s : ClientState} (hc : TransportCount s) (now : Nat)
    (w : Bool) : TransportCount (pingTick s now w).state := by
  unfold pingTick
  by_cases hcw : s.isConnected = true ∧ s.wsPresent = true
  · rw [if_pos hcw, sendCommand_state]
    exact hc
  · rw [if_neg hcw]
    exact hc

theorem applyOp_good {s : ClientState} (h : GoodState s) (op : UpOp) :
    GoodState (applyOp s op).state := by
  obtain ⟨h1, h2, h3⟩ := h
  cases op with
  | connectReq ok => exact connect_good ⟨h1, h2, h3⟩ ok
  | openEvt now =>
      show GoodState ((if s.wsPresent = true then onOpen s now
        else ({ state := s } : StepResult)).state)
      by_cases hws : s.wsPresent = true
      · rw [if_pos hws]
        exact onOpen_good hws now
      · rw [if_neg hws]
        exact ⟨h1, h2, h3⟩
  | messageEvt d now =>
      show GoodState ((if s.wsPresent = true then clientOnMessage s d now
        else ({ state := s } : StepResult)).state)
      by_cases hws : s.wsPresent = true
      · rw [if_pos hws]
        exact clientOnMessage_good ⟨h1, h2, h3⟩ d now
      · rw [if_neg hws]
        exact ⟨h1, h2, h3⟩
  | closeEvt c r =>
      show GoodState ((if s.wsPresent = true then handleDisconnection s c r
        else ({ state := s } : StepResult)).state)
      by_cases hws : s.wsPresent = true
      · rw [if_pos hws]
        exact handleDisconnection_good ⟨h1, h2, h3⟩ c r
      · rw [if_neg hws]
        exact ⟨h1, h2, h3⟩
  | errorEvt m dies =>
      show GoodState ((if s.wsPresent = true then handleConnectionError s m dies
        else ({ state := s } : StepResult)).state)
      by_cases hws : s.wsPresent = true
      · rw [if_pos hws]
        exact handleConnectionError_good ⟨h1, h2, h3⟩ m dies
      · rw [if_neg hws]
        exact ⟨h1, h2, h3⟩
  | disconnectReq => exact disconnect_good
  | sendReq c n w =>
      show GoodState (sendCommand s c n w).state
      rw [sendCommand_state]
      exact ⟨h1, h2, h3⟩
  | reconnectFire ok =>
      show GoodState ((if s.reconnectTimerSet = true then
        connect { s with reconnectTimerSet := false } ok
        else ({ state := s } : StepResult)).state)
      by_cases ht : s.reconnectTimerSet = true
      · rw [if_pos ht]
        exact connect_good (s := { s with reconnectTimerSet := false })
          ⟨h1, h2, h3⟩ ok
      · rw [if_neg ht]
        exact ⟨h1, h2, h3⟩
  | connectTimeoutFire dies =>
      show GoodState ((if s.connectionTimerSet = true then
        handleConnectionError s "Connection timeout" dies
        else ({ state := s } : StepResult)).state)
      by_cases ht : s.connectionTimerSet = true
      · rw [if_pos ht]
        exact handleConnectionError_good ⟨h1, h2, h3⟩ _ dies
      · rw [if_neg ht]
        exact ⟨h1, h2, h3⟩
  | pingTimerFire now w =>
      show GoodState ((if s.pingTimerSet = true then pingTick s now w
        else ({ state := s } : StepResult)).state)
      by_cases ht : s.pingTimerSet = true
      · rw [if_pos ht]
        exact pingTick_good ⟨h1, h2, h3⟩ now w
      · rw [if_neg ht]
        exact ⟨h1, h2, h3⟩
  | forceReconnectReq => exact disconnect_good
  | forceReconnectFire ok =>
      show GoodState (connect { s with reconnectAttempts := 0 } ok).state
      exact connect_good (s := { s with reconnectAttempts := 0 })
        ⟨h1, h2, Nat.zero_le _⟩ ok

theorem applyOp_count {s : ClientState} (h : GoodState s)
    (hc : TransportCount s) (op : UpOp) (hcl : opClean op = true) :
    TransportCount (applyOp s op).state := by
  obtain ⟨h1, h2, h3⟩ := h
  cases op with
  | connectReq ok => exact connect_count ⟨h1, h2, h3⟩ hc ok
  | openEvt now =>
      show TransportCount ((if s.wsPresent = true then onOpen s now
        else ({ state := s } : StepResult)).state)
      by_cases hws : s.wsPresent = true
      · rw [if_pos hws]
        exact onOpen_count hc now
      · rw [if_neg hws]
        exact hc
  | messageEvt d now =>
      show TransportCount ((if s.wsPresent = true then clientOnMessage s d now
        else ({ state := s } : StepResult)).state)
      by_cases hws : s.wsPresent = true
      · rw [if_pos hws]
        exact clientOnMessage_count hc d now
      · rw [if_neg hws]
        exact hc
  | closeEvt c r =>
      show TransportCount ((if s.wsPresent = true then handleDisconnection s c r
        else ({ state := s } : StepResult)).state)
      by_cases hws : s.wsPresent = true
      · rw [if_pos hws]
        exact handleDisconnection_count hc c r
      · rw [if_neg hws]
        exact hc
  | errorEvt m dies =>
      have hdies : dies = true := hcl
      subst hdies
      show TransportCount ((if s.wsPresent = true then handleConnectionError s m true
        else ({ state := s } : StepResult)).state)
      by_cases hws : s.wsPresent = true
      · rw [if_pos hws]
        exact handleConnectionError_count hc m
      · rw [if_neg hws]
        exact hc
  | disconnectReq => exact disconnect_count hc
  | sendReq c n w =>
      show TransportCount (sendCommand s c n w).state
      rw [sendCommand_state]
      exact hc
  | reconnectFire ok =>
      show TransportCount ((if s.reconnectTimerSet = true then
        connect { s with reconnectTimerSet := false } ok
        else ({ state := s } : StepResult)).state)
      by_cases ht : s.reconnectTimerSet = true
      · rw [if_pos ht]
        exact connect_count (s := { s with reconnectTimerSet := false })
          ⟨h1, h2, h3⟩ hc ok
      · rw [if_neg ht]
        exact hc
  | connectTimeoutFire dies =>
      have hdies : dies = true := hcl
      subst hdies
      show TransportCount ((if s.connectionTimerSet = true then
        handleConnectionError s "Connection timeout" true
        else ({ state := s } : StepResult)).state)
      by_cases ht : s.connectionTimerSet = true
      · rw [if_pos ht]
        exact handleConnectionError_count hc _
      · rw [if_neg ht]
        exact hc
  | pingTimerFire now w =>
      show TransportCount ((if s.pingTimerSet = true then pingTick s now w
        else ({ state := s } : StepResult)).state)
      by_cases ht : s.pingTimerSet = true
      · rw [if_pos ht]
        exact pingTick_count hc now w
      · rw [if_neg ht]
        exact hc
  | forceReconnectReq => exact disconnect_count hc
  | forceReconnectFire ok =>
      show TransportCount (connect { s with reconnectAttempts := 0 } ok).state
      exact connect_count (s := { s with reconnectAttempts := 0 })
        ⟨h1, h2, Nat.zero_le _⟩ hc ok

theorem runOps_good {s : ClientState} (h : GoodState s) (ops : List UpOp) :
    GoodState (runOps s ops) := by
  induction ops generalizing s with
  | nil => exact h
  | cons op rest ih => exact ih (applyOp_good h op)

theorem runOps_count {s : ClientState} (h : GoodState s)
    (hc : TransportCount s) (ops : List UpOp)
    (hcl : ∀ op ∈ ops, opClean op = true) :
    TransportCount (runOps s ops) := by
  induction ops generalizing s with
  | nil => exact hc
  | cons op rest ih =>
      exact ih (applyOp_good h op)
        (applyOp_count h hc op (hcl op (List.mem_cons_self _ _)))
        (fun o ho => hcl o (List.mem_cons_of_mem _ ho))

theorem initState_good (cfg : ESP8266Config) : GoodState (initState cfg) :=
  ⟨fun hw => absurd hw (by simp [initState]),
   fun hc => absurd hc (by simp [initState]), Nat.zero_le _⟩

theorem initState_count (cfg : ESP8266Config) : TransportCount (initState cfg) :=
  rfl


theorem attemptReconnect_config (s : ClientState) :
    (attemptReconnect s).state.config = s.config := by
  unfold attemptReconnect
  split <;> rfl

theorem connect_config (s : ClientState) (ok : Bool) :
    (connect s ok).state.config = s.config := by
  unfold connect
  split
  · rfl
  · split <;> rfl

theorem sendCommand_config (s : ClientState) (cmd : ClientCmd) (now : Nat)
    (w : Bool) : (sendCommand s cmd now w).state.config = s.config := by
  rw [sendCommand_state]

theorem handleConnectionError_config (s : ClientState) (msg : String)
    (dies : Bool) :
    (handleConnectionError s msg dies).state.config = s.config := by
  show (attemptReconnect
    { s with connectionTimerSet := false, isConnecting := false,
             isConnected := false, wsPresent := false,
             liveTransports := if s.wsPresent && dies then
                                 s.liveTransports - 1
                               else s.liveTransports }).state.config = s.config
  rw [attemptReconnect_config]

theorem handleDisconnection_config (s : ClientState) (code : Nat)
    (reason : String) :
    (handleDisconnection s code reason).state.config = s.config := by
  by_cases hcode : code = 1006 ∨ code = 1011 ∨ code = 1014
  · show ((if code = 1006 ∨ code = 1011 ∨ code = 1014 then
        { attemptReconnect (discTeardown s) with
          events := UpEvent.disconnectedWith code reason ::
            (attemptReconnect (discTeardown s)).events }
      else ({ state := discTeardown s,
              events := [UpEvent.disconnectedWith code reason] } : StepResult)).state.config
      = s.config)
    rw [if_pos hcode]
    show (attemptReconnect (discTeardown s)).state.config = s.config
    rw [attemptReconnect_config]
    rfl
  · show ((if code = 1006 ∨ code = 1011 ∨ code = 1014 then
        { attemptReconnect (discTeardown s) with
          events := UpEvent.disconnectedWith code reason ::
            (attemptReconnect (discTeardown s)).events }
      else ({ state := discTeardown s,
              events := [UpEvent.disconnectedWith code reason] } : StepResult)).state.config
      = s.config)
    rw [if_neg hcode]
    rfl

theorem clientOnMessage_config (s : ClientState) (data : Option UpMsg)
    (now : Nat) : (clientOnMessage s data now).state.config = s.config := by
  cases data with
  | none => rfl
  | some m =>
      show ((if m.type = some "command_response" ∧ m.action = some "ping"
        then ({ state := { s with lastPingTime := now } } : StepResult)
        else { state := s, events := [UpEvent.message m] }).state.config = s.config)
      split <;> rfl

theorem pingTick_config (s : ClientState) (now : Nat) (w : Bool) :
    (pingTick s now w).state.config = s.config := by
  unfold pingTick
  split
  · rw [sendCommand_state]
  · rfl

theorem applyOp_config (s : ClientState) (op : UpOp) :
    (applyOp s op).state.config = s.config := by
  cases op with
  | connectReq ok => exact connect_config s ok
  | openEvt now =>
      show ((if s.wsPresent = true then onOpen s now
        else ({ state := s } : StepResult)).state.config = s.config)
      split <;> rfl
  | messageEvt d now =>
      show ((if s.wsPresent = true then clientOnMessage s d now
        else ({ state := s } : StepResult)).state.config = s.config)
      split
      · exact clientOnMessage_config s d now
      · rfl
  | closeEvt c r =>
      show ((if s.wsPresent = true then handleDisconnection s c r
        else ({ state := s } : StepResult)).state.config = s.config)
      split
      · exact handleDisconnection_config s c r
      · rfl
  | errorEvt m dies =>
      show ((if s.wsPresent = true then handleConnectionError s m dies
        else ({ state := s } : StepResult)).state.config = s.config)
      split
      · exact handleConnectionError_config s m dies
      · rfl
  | disconnectReq => rfl
  | sendReq c n w => exact sendCommand_config s c n w
  | reconnectFire ok =>
      show ((if s.reconnectTimerSet = true then
        connect { s with reconnectTimerSet := false } ok
        else ({ state := s } : StepResult)).state.config = s.config)
      split
      · exact connect_config { s with reconnectTimerSet := false } ok
      · rfl
  | connectTimeoutFire dies =>
      show ((if s.connectionTimerSet = true then
        handleConnectionError s "Connection timeout" dies
        else ({ state := s } : StepResult)).state.config = s.config)
      split
      · exact handleConnectionError_config s _ dies
      · rfl
  | pingTimerFire now w =>
      show ((if s.pingTimerSet = true then pingTick s now w
        else ({ state := s } : StepResult)).state.config = s.config)
      split
      · exact pingTick_config s now w
      · rfl
  | forceReconnectReq => rfl
  | forceReconnectFire ok =>
      exact connect_config { s with reconnectAttempts := 0 } ok

theorem runOps_config (s : ClientState) (ops : List UpOp) :
    (runOps s ops).config = s.config := by
  induction ops generalizing s with
  | nil => rfl
  | cons op rest ih => rw [runOps, ih, applyOp_config]

/-! ## Claim theorems -/

/-- C1 counterexample: two simultaneous upstream transport connections.
A connect request opens a transport and arms the connect timeout; the
timeout fires and `handleConnectionError` drops the socket without calling
`close()`; the abandoned handshake completes (`abandonedDies := false`),
leaving a live connection nothing ever closes, and the scheduled reconnect
then opens a second transport — so the number of live transport-level
connections reaches 2, refuting the at-most-one invariant. -/
theorem C1_two_transports_cex :
    (runOps (initState cfgEx) leakOps).liveTransports = 2 ∧
    ¬ (runOps (initState cfgEx) leakOps).liveTransports ≤ 1 := by
  decide

/-- C1 (amended): while the upstream link is connecting or connected,
`connect()` returns immediately, creating no new transport and changing
nothing; consequently a transport is never created while one is owned — on
every run from a fresh client, `connect` is a no-op whenever `this.ws` is
non-null — and on every run in which each socket abandoned by
`handleConnectionError` is or ends dead, at most one live transport exists.
Without that proviso the bound fails (see the counterexample):
`handleConnectionError` removes the listeners and nulls `this.ws` without
`close()`, so a timed-out connect whose handshake completes afterwards
coexists with the reconnect's new transport. -/
theorem C1_connect_guard_amended :
    (∀ s : ClientState, ∀ ok : Bool,
       s.isConnected = true ∨ s.isConnecting = true →
       connect s ok = { state := s }) ∧
    (∀ cfg : ESP8266Config, ∀ ops : List UpOp, ∀ ok : Bool,
       (runOps (initState cfg) ops).wsPresent = true →
       connect (runOps (initState cfg) ops) ok =
         { state := runOps (initState cfg) ops }) ∧
    (∀ cfg : ESP8266Config, ∀ ops : List UpOp,
       (∀ op ∈ ops, opClean op = true) →
       (runOps (initState cfg) ops).liveTransports ≤ 1) := by
  refine ⟨?_, ?_, ?_⟩
  · intro s ok h
    have hcond : (s.isConnected || s.isConnecting) = true := by
      rcases h with h | h <;> simp [h]
    unfold connect
    rw [if_pos hcond]
  · intro cfg ops ok hws
    obtain ⟨h1, _, _⟩ := runOps_good (initState_good cfg) ops
    have hcond : ((runOps (initState cfg) ops).isConnected ||
        (runOps (initState cfg) ops).isConnecting) = true := by
      rcases h1 hws with hc | hc <;> simp [hc]
    unfold connect
    rw [if_pos hcond]
  · intro cfg ops hclean
    have hc := runOps_count (initState_good cfg) (initState_count cfg) ops hclean
    rw [hc]
    split <;> omega

/-- witness for the amended C1: the guard at a connecting state, the no-op
on an owned transport after one connect request, and the live-transport
bound over a clean connect/timeout/reconnect sequence -/
theorem C1_connect_guard_amended_witness :
    (espConnectingSt.isConnected = true ∨ espConnectingSt.isConnecting = true) ∧
    connect espConnectingSt true = { state := espConnectingSt } ∧
    (runOps (initState cfgEx) [UpOp.connectReq true]).wsPresent = true ∧
    connect (runOps (initState cfgEx) [UpOp.connectReq true]) true =
      { state := runOps (initState cfgEx) [UpOp.connectReq true] } ∧
    (∀ op ∈ ([UpOp.connectReq true, UpOp.connectTimeoutFire true,
              UpOp.reconnectFire true] : List UpOp), opClean op = true) ∧
    (runOps (initState cfgEx) [UpOp.connectReq true, UpOp.connectTimeoutFire true,
       UpOp.reconnectFire true]).liveTransports ≤ 1 :=
  ⟨Or.inr rfl,
   C1_connect_guard_amended.1 espConnectingSt true (Or.inr rfl),
   by decide,
   C1_connect_guard_amended.2.1 cfgEx [UpOp.connectReq true] true (by decide),
   by decide,
   C1_connect_guard_amended.2.2 cfgEx
     [UpOp.connectReq true, UpOp.connectTimeoutFire true, UpOp.reconnectFire true]
     (by decide)⟩

/-- C2: the reconnect policy — below the maximum, `attemptReconnect`
increments the counter by one and schedules exactly one re-attempt after
`reconnectDelay`; at or above the maximum it emits
`maxReconnectAttemptsReached` and schedules nothing; consequently the
counter never exceeds the configured maximum on any run from a fresh
client; and a forced reconnect resets the counter to 0 before calling
`connect`. -/
theorem C2_reconnect_policy :
    (∀ s : ClientState, s.reconnectAttempts < s.config.maxReconnectAttempts →
       attemptReconnect s =
         { state := { s with reconnectAttempts := s.reconnectAttempts + 1,
                             reconnectTimerSet := true },
           scheduledReconnect := some s.config.reconnectDelay }) ∧
    (∀ s : ClientState, s.config.maxReconnectAttempts ≤ s.reconnectAttempts →
       attemptReconnect s =
         { state := s, events := [UpEvent.maxReconnectAttemptsReached] }) ∧
    (∀ cfg : ESP8266Config, ∀ ops : List UpOp,
       (runOps (initState cfg) ops).reconnectAttempts ≤
         cfg.maxReconnectAttempts) ∧
    (∀ s : ClientState, (forceReconnect s).state.reconnectAttempts = 0) ∧
    (∀ s : ClientState, ∀ ok : Bool,
       forceReconnectTimer s ok = connect { s with reconnectAttempts := 0 } ok ∧
       (forceReconnectTimer s ok).state.reconnectAttempts = 0) := by
  refine ⟨?_, ?_, ?_, ?_, ?_⟩
  · intro s h
    unfold attemptReconnect
    rw [if_neg (by omega)]
  · intro s h
    unfold attemptReconnect
    rw [if_pos h]
  · intro cfg ops
    obtain ⟨_, _, h4⟩ := runOps_good (initState_good cfg) ops
    rw [runOps_config] at h4
    exact h4
  · intro s
    rfl
  · intro s ok
    refine ⟨rfl, ?_⟩
    show (connect { s with reconnectAttempts := 0 } ok).state.reconnectAttempts = 0
    unfold connect
    split
    · rfl
    · split <;> rfl

/-- witness for C2 at concrete states with 2 of 5 and 5 of 5 attempts
spent, and a concrete run reaching one reconnect attempt -/
theorem C2_reconnect_policy_witness :
    (espAtt2.reconnectAttempts < espAtt2.config.maxReconnectAttempts) ∧
    attemptReconnect espAtt2 =
      { state := { espAtt2 with reconnectAttempts := espAtt2.reconnectAttempts + 1,
                                reconnectTimerSet := true },
        scheduledReconnect := some espAtt2.config.reconnectDelay } ∧
    (espAtt5.config.maxReconnectAttempts ≤ espAtt5.reconnectAttempts) ∧
    attemptReconnect espAtt5 =
      { state := espAtt5, events := [UpEvent.maxReconnectAttemptsReached] } ∧
    (runOps (initState cfgEx) [UpOp.connectReq true, UpOp.connectTimeoutFire true,
       UpOp.reconnectFire true]).reconnectAttempts ≤ cfgEx.maxReconnectAttempts ∧
    (forceReconnect espAtt5).state.reconnectAttempts = 0 ∧
    (forceReconnectTimer espAtt5 true =
       connect { espAtt5 with reconnectAttempts := 0 } true ∧
     (forceReconnectTimer espAtt5 true).state.reconnectAttempts = 0) :=
  ⟨by decide, C2_reconnect_policy.1 espAtt2 (by decide), by decide,
   C2_reconnect_policy.2.1 espAtt5 (by decide),
   C2_reconnect_policy.2.2.1 cfgEx _,
   C2_reconnect_policy.2.2.2.1 espAtt5,
   C2_reconnect_policy.2.2.2.2 espAtt5 true⟩

/-- C3: a transport closure evaluates the reconnect policy exactly for
close codes 1006, 1011 and 1014; every other code — 1000 and 1001
included — performs the teardown and emits `disconnected` but schedules no
reconnect attempt and leaves the attempt counter untouched. -/
theorem C3_reconnect_codes (s : ClientState) (code : Nat) (reason : String) :
    (code = 1006 ∨ code = 1011 ∨ code = 1014 →
       handleDisconnection s code reason =
         { attemptReconnect (discTeardown s) with
           events := UpEvent.disconnectedWith code reason ::
             (attemptReconnect (discTeardown s)).events }) ∧
    (¬(code = 1006 ∨ code = 1011 ∨ code = 1014) →
       handleDisconnection s code reason =
         { state := discTeardown s,
           events := [UpEvent.disconnectedWith code reason] } ∧
       (handleDisconnection s code reason).scheduledReconnect = none ∧
       (handleDisconnection s code reason).state.reconnectAttempts =
         s.reconnectAttempts) := by
  constructor
  · intro hcode
    show (if code = 1006 ∨ code = 1011 ∨ code = 1014 then
        { attemptReconnect (discTeardown s) with
          events := UpEvent.disconnectedWith code reason ::
            (attemptReconnect (discTeardown s)).events }
      else ({ state := discTeardown s,
              events := [UpEvent.disconnectedWith code reason] } : StepResult)) = _
    rw [if_pos hcode]
  · intro hcode
    have he : handleDisconnection s code reason =
        { state := discTeardown s,
          events := [UpEvent.disconnectedWith code reason] } := by
      show (if code = 1006 ∨ code = 1011 ∨ code = 1014 then
          { attemptReconnect (discTeardown s) with
            events := UpEvent.disconnectedWith code reason ::
              (attemptReconnect (discTeardown s)).events }
        else ({ state := discTeardown s,
                events := [UpEvent.disconnectedWith code reason] } : StepResult)) = _
      rw [if_neg hcode]
    refine ⟨he, by rw [he], by rw [he]; rfl⟩

/-- witness for C3 at a connected state with an abnormal closure (1006) and
a normal closure (1000) -/
theorem C3_reconnect_codes_witness :
    ((1006 : Nat) = 1006 ∨ (1006 : Nat) = 1011 ∨ (1006 : Nat) = 1014) ∧
    handleDisconnection espConnSt 1006 "abnormal" =
      { attemptReconnect (discTeardown espConnSt) with
        events := UpEvent.disconnectedWith 1006 "abnormal" ::
          (attemptReconnect (discTeardown espConnSt)).events } ∧
    ¬((1000 : Nat) = 1006 ∨ (1000 : Nat) = 1011 ∨ (1000 : Nat) = 1014) ∧
    (handleDisconnection espConnSt 1000 "normal" =
       { state := discTeardown espConnSt,
         events := [UpEvent.disconnectedWith 1000 "normal"] } ∧
     (handleDisconnection espConnSt 1000 "normal").scheduledReconnect = none ∧
     (handleDisconnection espConnSt 1000 "normal").state.reconnectAttempts =
       espConnSt.reconnectAttempts) :=
  ⟨Or.inl rfl, (C3_reconnect_codes espConnSt 1006 "abnormal").1 (Or.inl rfl),
   by decide, (C3_reconnect_codes espConnSt 1000 "normal").2 (by decide)⟩

theorem forward_disconnected (ps : ProxyState) (esp : ClientState)
    (cmd : ClientCmd) (cid : String) (sess : Session) (now : Nat) (w : Bool)
    (hdisc : esp.isConnected = false)
    (hmem : findSess ps.clients cid = some sess) :
    forwardCommandToESP8266 ps esp cmd cid now w =
      { proxy := ps, esp := esp,
        sends := tagSends cid (sendToClient sess
          (WireMsg.errMsg "ESP8266 not connected" cmd.action now)) } := by
  unfold forwardCommandToESP8266
  rw [if_pos hdisc, hmem]

/-- C4: a message from a registered session that fails JSON parsing, fails
command validation, or carries a valid non-ping command while the upstream
is disconnected produces exactly one error frame, delivered to that session
alone; nothing is written upstream, the upstream client emits nothing and is
unchanged, and every other session is untouched. -/
theorem C4_sender_only_errors (ps : ProxyState) (esp : ClientState)
    (cid : String) (sess : Session) (data : Option ClientCmd) (now : Nat)
    (writeOk : Bool)
    (hmem : findSess ps.clients cid = some sess)
    (hopen : sess.socketOpen = true) (hok : sess.sendFails = false)
    (hcase : data = none ∨ ∃ cmd, data = some cmd ∧ ¬cmd.action = some "ping" ∧
       (isValidCommand cmd = false ∨ esp.isConnected = false)) :
    ∃ m : WireMsg, m.isError = true ∧
      (handleClientMessage ps esp cid data now writeOk).sends = [(cid, m)] ∧
      (handleClientMessage ps esp cid data now writeOk).wrote = none ∧
      (handleClientMessage ps esp cid data now writeOk).espEvents = [] ∧
      (handleClientMessage ps esp cid data now writeOk).esp = esp ∧
      ∀ cid2 : String, ¬cid2 = cid →
        findSess (handleClientMessage ps esp cid data now writeOk).proxy.clients cid2 =
          findSess ps.clients cid2 := by
  rcases hcase with rfl | ⟨cmd, rfl, hping, hrest⟩
  · have hred : handleClientMessage ps esp cid none now writeOk =
        { proxy := ps, esp := esp,
          sends := tagSends cid (sendToClient sess
            (WireMsg.errMsg "Invalid JSON format" none now)) } := by
      simp only [handleClientMessage, hmem]
    refine ⟨WireMsg.errMsg "Invalid JSON format" none now, rfl, ?_,
      by rw [hred], by rw [hred], by rw [hred], ?_⟩
    · rw [hred]
      simp [tagSends, sendToClient, hopen, hok]
    · intro cid2 hne
      rw [hred]
  · by_cases hval : isValidCommand cmd = false
    · have hred : handleClientMessage ps esp cid (some cmd) now writeOk =
          { proxy := ps, esp := esp,
            sends := tagSends cid (sendToClient sess
              (WireMsg.errMsg "Invalid command format" cmd.action now)) } := by
        simp only [handleClientMessage, hmem]
        rw [if_neg hping, if_pos hval]
      refine ⟨WireMsg.errMsg "Invalid command format" cmd.action now, rfl, ?_,
        by rw [hred], by rw [hred], by rw [hred], ?_⟩
      · rw [hred]
        simp [tagSends, sendToClient, hopen, hok]
      · intro cid2 hne
        rw [hred]
    · rcases hrest with hval2 | hdisc
      · exact absurd hval2 hval
      · have h1 : handleClientMessage ps esp cid (some cmd) now writeOk =
            forwardCommandToESP8266
              { ps with clients := mapSet ps.clients cid
                                     ({ sess with info := { sess.info with lastPing := some now } }) }
              esp cmd cid now writeOk := by
          simp only [handleClientMessage, hmem]
          rw [if_neg hping, if_neg hval]
        have hm : findSess (mapSet ps.clients cid
            ({ sess with info := { sess.info with lastPing := some now } })) cid =
            some { sess with info := { sess.info with lastPing := some now } } :=
          findSess_mapSet_self _ _ _
        have h2 := forward_disconnected
          { ps with clients := mapSet ps.clients cid
                                 ({ sess with info := { sess.info with lastPing := some now } }) }
          esp cmd cid
          ({ sess with info := { sess.info with lastPing := some now } })
          now writeOk hdisc hm
        refine ⟨WireMsg.errMsg "ESP8266 not connected" cmd.action now, rfl, ?_,
          by rw [h1, h2], by rw [h1, h2], by rw [h1, h2], ?_⟩
        · rw [h1, h2]
          simp [tagSends, sendToClient, hopen, hok]
        · intro cid2 hne
          rw [h1, h2]
          exact findSess_mapSet_ne _ _ _ _ hne

/-- witness for C4: session A of two open sessions sends an unrecognized
command while the upstream is disconnected -/
theorem C4_sender_only_errors_witness :
    findSess psAB.clients "A" = some (openSess "A") ∧
    (openSess "A").socketOpen = true ∧
    (openSess "A").sendFails = false ∧
    (∃ m : WireMsg, m.isError = true ∧
      (handleClientMessage psAB espDiscSt "A" (some cmdBad) 7 true).sends = [("A", m)] ∧
      (handleClientMessage psAB espDiscSt "A" (some cmdBad) 7 true).wrote = none ∧
      (handleClientMessage psAB espDiscSt "A" (some cmdBad) 7 true).espEvents = [] ∧
      (handleClientMessage psAB espDiscSt "A" (some cmdBad) 7 true).esp = espDiscSt ∧
      ∀ cid2 : String, ¬cid2 = "A" →
        findSess (handleClientMessage psAB espDiscSt "A" (some cmdBad) 7 true).proxy.clients cid2 =
          findSess psAB.clients cid2) :=
  ⟨by decide, by decide, by decide,
   C4_sender_only_errors psAB espDiscSt "A" (openSess "A") (some cmdBad) 7 true
     (by decide) (by decide) (by decide)
     (Or.inr ⟨cmdBad, rfl, by decide, Or.inl (by decide)⟩)⟩

/-- C5: handling a client registration sends the new session, in order, a
status frame synthesized from the upstream client's current flags and
reconnect-attempt count, then — exactly when a last payload is stored — that
stored payload; registration does not change the stored payload. -/
theorem C5_catch_up_on_join (ps : ProxyState) (esp : ClientState)
    (cid ip : String) (now : Nat) :
    (handleConnection ps esp cid ip true false now).2 =
      WireMsg.connStatus esp.isConnected esp.isConnecting esp.reconnectAttempts now ::
        (match ps.lastESP8266Data with
         | some d => [WireMsg.upstream d]
         | none => []) ∧
    (handleConnection ps esp cid ip true false now).1.lastESP8266Data =
      ps.lastESP8266Data := by
  constructor
  · unfold handleConnection sendConnectionStatus sendToClient
    cases hld : ps.lastESP8266Data with
    | none => simp [hld]
    | some d => simp [hld]
  · rfl

/-- C7: a client `ping` command is answered directly with a pong response to
that session only; nothing is written to the upstream transport and the
upstream client — whatever its phase, including disconnected — emits nothing
and is unchanged. -/
theorem C7_liveness_bypass (ps : ProxyState) (esp : ClientState)
    (cid : String) (sess : Session) (cmd : ClientCmd) (now : Nat) (writeOk : Bool)
    (hmem : findSess ps.clients cid = some sess)
    (hopen : sess.socketOpen = true) (hok : sess.sendFails = false)
    (hact : cmd.action = some "ping") :
    (handleClientMessage ps esp cid (some cmd) now writeOk).sends =
      [(cid, WireMsg.pongResponse now)] ∧
    (handleClientMessage ps esp cid (some cmd) now writeOk).wrote = none ∧
    (handleClientMessage ps esp cid (some cmd) now writeOk).espEvents = [] ∧
    (handleClientMessage ps esp cid (some cmd) now writeOk).esp = esp := by
  have hred : handleClientMessage ps esp cid (some cmd) now writeOk =
      { proxy := { ps with clients := mapSet ps.clients cid
                                       ({ sess with lastPing := some now,
                                                    info := { sess.info with lastPing := some now } }) },
        esp := esp,
        sends := tagSends cid (sendToClient
          { sess with lastPing := some now,
                      info := { sess.info with lastPing := some now } }
          (WireMsg.pongResponse now)) } := by
    simp only [handleClientMessage, hmem]
    rw [if_pos hact]
  refine ⟨?_, by rw [hred], by rw [hred], by rw [hred]⟩
  rw [hred]
  simp [tagSends, sendToClient, hopen, hok]

/-- witness for C7: session A pings while the upstream is disconnected -/
theorem C7_liveness_bypass_witness :
    findSess psAB.clients "A" = some (openSess "A") ∧
    cmdPing.action = some "ping" ∧
    espDiscSt.isConnected = false ∧
    ((handleClientMessage psAB espDiscSt "A" (some cmdPing) 9 true).sends =
       [("A", WireMsg.pongResponse 9)] ∧
     (handleClientMessage psAB espDiscSt "A" (some cmdPing) 9 true).wrote = none ∧
     (handleClientMessage psAB espDiscSt "A" (some cmdPing) 9 true).espEvents = [] ∧
     (handleClientMessage psAB espDiscSt "A" (some cmdPing) 9 true).esp = espDiscSt) :=
  ⟨by decide, rfl, rfl,
   C7_liveness_bypass psAB espDiscSt "A" (openSess "A") cmdPing 9 true
     (by decide) (by decide) (by decide) rfl⟩

theorem onEspMessage_eq (ps : ProxyState) (m : UpMsg) :
    onEspMessage ps m =
      if isLivenessAck m = true then
        ({ state := { ps with lastESP8266Data := some m } } : BroadcastResult)
      else
        broadcastToClients { ps with lastESP8266Data := some m }
          (WireMsg.upstream m) := rfl

/-- C6 counterexample: a `pong` payload arriving after a stored sensor
payload is not broadcast, yet it IS stored: `lastESP8266Data` is overwritten
with the pong (the handler stores every payload before its liveness check),
contradicting the claim that a liveness acknowledgment is neither broadcast
nor stored. -/
theorem C6_liveness_stored_cex :
    isLivenessAck pongMsg = true ∧
    (onEspMessage psC6 pongMsg).delivered = [] ∧
    (onEspMessage psC6 pongMsg).state.lastESP8266Data = some pongMsg ∧
    ¬ (onEspMessage psC6 pongMsg).state.lastESP8266Data =
        psC6.lastESP8266Data := by
  decide

/-- C6 (amended): every upstream `message` payload — liveness
acknowledgments included — is stored as the last payload, before the
liveness check; a liveness acknowledgment is then consumed without any
broadcast, every other payload is broadcast verbatim; so the stored payload
is the most recently emitted payload, not the most recently broadcast one.
(`command_response`/`ping` payloads are additionally consumed inside the
upstream client itself and never emitted to the handler.) -/
theorem C6_liveness_filter_amended (ps : ProxyState) (m : UpMsg) :
    (onEspMessage ps m).state.lastESP8266Data = some m ∧
    (isLivenessAck m = true →
       (onEspMessage ps m).delivered = [] ∧
       (onEspMessage ps m).state.clients = ps.clients) ∧
    (isLivenessAck m = false →
       onEspMessage ps m =
         broadcastToClients { ps with lastESP8266Data := some m }
           (WireMsg.upstream m)) ∧
    (∀ s : ClientState, ∀ now : Nat, ∀ m2 : UpMsg,
       m2.type = some "command_response" → m2.action = some "ping" →
       (clientOnMessage s (some m2) now).events = []) := by
  refine ⟨?_, ?_, ?_, ?_⟩
  · rw [onEspMessage_eq]
    by_cases hl : isLivenessAck m = true
    · rw [if_pos hl]
    · rw [if_neg hl, broadcast_lastData]
  · intro hl
    rw [onEspMessage_eq, if_pos hl]
    exact ⟨rfl, rfl⟩
  · intro hl
    rw [onEspMessage_eq, if_neg (by rw [hl]; exact Bool.false_ne_true)]
  · intro s now m2 ht ha
    simp only [clientOnMessage]
    rw [if_pos ⟨ht, ha⟩]

/-- witness for the amended C6 at a stored-sensor state: a pong is silently
stored, a sensor payload is broadcast verbatim, and a ping command response
is consumed by the upstream client -/
theorem C6_liveness_filter_amended_witness :
    isLivenessAck pongMsg = true ∧
    ((onEspMessage psC6 pongMsg).delivered = [] ∧
     (onEspMessage psC6 pongMsg).state.clients = psC6.clients) ∧
    isLivenessAck sensorMsg = false ∧
    onEspMessage psC6 sensorMsg =
      broadcastToClients { psC6 with lastESP8266Data := some sensorMsg }
        (WireMsg.upstream sensorMsg) ∧
    cmdRespPing.type = some "command_response" ∧
    cmdRespPing.action = some "ping" ∧
    (clientOnMessage espConnSt (some cmdRespPing) 3).events = [] :=
  ⟨by decide, (C6_liveness_filter_amended psC6 pongMsg).2.1 (by decide),
   by decide, (C6_liveness_filter_amended psC6 sensorMsg).2.2.1 (by decide),
   rfl, rfl,
   (C6_liveness_filter_amended psC6 sensorMsg).2.2.2 espConnSt 3 cmdRespPing rfl rfl⟩

/-- C8 counterexample: a failing transport write while connected emits the
error event and returns false, but does NOT downgrade the connection state —
`isConnected` stays true, contradicting the claim that a write failure
downgrades the connection state. -/
theorem C8_write_failure_no_downgrade_cex :
    (sendCommand espConnSt cmdToggle 5 false).sendRet = some false ∧
    (sendCommand espConnSt cmdToggle 5 false).events =
      [UpEvent.error "write failed"] ∧
    (sendCommand espConnSt cmdToggle 5 false).wrote = none ∧
    ¬ (sendCommand espConnSt cmdToggle 5 false).state.isConnected = false := by
  decide

/-- C8 (amended): `sendCommand` returns false with no transport write when
the link is not connected; when connected (with its live transport, which
every reachable connected state has) it writes the command with the
server-assigned timestamp and returns true; and when the write throws it
emits the error event and returns false, leaving the state — including
`isConnected` — unchanged. -/
theorem C8_sendCommand_amended :
    (∀ s : ClientState, ∀ cmd : ClientCmd, ∀ now : Nat, ∀ w : Bool,
       s.isConnected = false →
       sendCommand s cmd now w = { state := s, sendRet := some false }) ∧
    (∀ s : ClientState, ∀ cmd : ClientCmd, ∀ now : Nat,
       s.isConnected = true → s.wsPresent = true →
       sendCommand s cmd now true =
         { state := s, wrote := some { cmd with timestamp := some now },
           sendRet := some true }) ∧
    (∀ s : ClientState, ∀ cmd : ClientCmd, ∀ now : Nat,
       s.isConnected = true → s.wsPresent = true →
       sendCommand s cmd now false =
         { state := s, events := [UpEvent.error "write failed"],
           sendRet := some false }) ∧
    (∀ cfg : ESP8266Config, ∀ ops : List UpOp,
       (runOps (initState cfg) ops).isConnected = true →
       (runOps (initState cfg) ops).wsPresent = true) := by
  refine ⟨?_, ?_, ?_, ?_⟩
  · intro s cmd now w h
    unfold sendCommand
    rw [if_pos (by rw [h]; rfl)]
  · intro s cmd now hc hw
    unfold sendCommand
    rw [if_neg (by rw [hc, hw]; simp), if_pos rfl]
  · intro s cmd now hc hw
    unfold sendCommand
    rw [if_neg (by rw [hc, hw]; simp), if_neg Bool.false_ne_true]
  · intro cfg ops h
    obtain ⟨_, h2, _⟩ := runOps_good (initState_good cfg) ops
    exact h2 h

/-- witness for the amended C8 at concrete disconnected and connected
states, and a concrete run reaching a connected state -/
theorem C8_sendCommand_amended_witness :
    espDiscSt.isConnected = false ∧
    sendCommand espDiscSt cmdToggle 5 true =
      { state := espDiscSt, sendRet := some false } ∧
    (espConnSt.isConnected = true ∧ espConnSt.wsPresent = true) ∧
    sendCommand espConnSt cmdToggle 5 true =
      { state := espConnSt,
        wrote := some { cmdToggle with timestamp := some 5 },
        sendRet := some true } ∧
    sendCommand espConnSt cmdToggle 5 false =
      { state := espConnSt, events := [UpEvent.error "write failed"],
        sendRet := some false } ∧
    ((runOps (initState cfgEx) [UpOp.connectReq true, UpOp.openEvt 1]).isConnected = true →
     (runOps (initState cfgEx) [UpOp.connectReq true, UpOp.openEvt 1]).wsPresent = true) :=
  ⟨rfl, C8_sendCommand_amended.1 espDiscSt cmdToggle 5 true rfl,
   ⟨rfl, rfl⟩,
   C8_sendCommand_amended.2.1 espConnSt cmdToggle 5 rfl rfl,
   C8_sendCommand_amended.2.2.1 espConnSt cmdToggle 5 rfl rfl,
   C8_sendCommand_amended.2.2.2 cfgEx [UpOp.connectReq true, UpOp.openEvt 1]⟩

/-- C9 counterexample: with five registered sessions of which two have
closed sockets, `broadcastToClients` makes exactly 3 successful deliveries
and logs that count, but the method is declared `void` — it returns nothing,
so it does not return the count of successful deliveries as claimed. -/
theorem C9_broadcast_returns_void_cex :
    (broadcastToClients psC9 (WireMsg.upstream sensorMsg)).successCount = 3 ∧
    (broadcastToClients psC9 (WireMsg.upstream sensorMsg)).returned = none ∧
    ¬ (broadcastToClients psC9 (WireMsg.upstream sensorMsg)).returned =
        some (broadcastToClients psC9 (WireMsg.upstream sensorMsg)).successCount := by
  decide

/-- C9 (amended): `broadcastToClients` attempts delivery across the whole
registered-session collection, defers removal of sessions with closed or
throwing sockets until the iteration completes, computes and logs the count
of successful deliveries (but returns nothing — the method is `void`); with
5 registered sessions of which 2 have closed sockets, exactly 3 deliveries
succeed and the 2 stale sessions are absent from the subsequent client-info
snapshot. -/
theorem C9_broadcast_amended :
    (∀ ps : ProxyState, ∀ m : WireMsg,
       (broadcastToClients ps m).delivered =
         (ps.clients.filter liveSess).map (fun p => (p.1, m)) ∧
       (broadcastToClients ps m).successCount =
         (ps.clients.filter liveSess).length ∧
       (broadcastToClients ps m).returned = none) ∧
    (∀ ps : ProxyState, ∀ m : WireMsg, (ps.clients.map Prod.fst).Nodup →
       (broadcastToClients ps m).state.clients = ps.clients.filter liveSess) ∧
    (broadcastToClients psC9 (WireMsg.upstream sensorMsg)).successCount = 3 ∧
    getClientsInfo (broadcastToClients psC9 (WireMsg.upstream sensorMsg)).state =
      [infoOf "a", infoOf "c", infoOf "e"] := by
  refine ⟨?_, ?_, ?_, ?_⟩
  · intro ps m
    exact ⟨broadcast_delivered ps m, broadcast_count ps m, broadcast_returned ps m⟩
  · intro ps m hnd
    exact broadcast_state_clients ps m hnd
  · decide
  · decide

/-- witness for the amended C9 at the five-session fixture, whose keys are
distinct -/
theorem C9_broadcast_amended_witness :
    (psC9.clients.map Prod.fst).Nodup ∧
    (broadcastToClients psC9 (WireMsg.upstream sensorMsg)).state.clients =
      psC9.clients.filter liveSess :=
  ⟨by decide,
   C9_broadcast_amended.2.1 psC9 (WireMsg.upstream sensorMsg) (by decide)⟩

/-- C10: `disconnect()` in any state — a fresh client and a repeated call
included — cancels the keepalive, reconnect and connection timers, resets
the reconnect counter to 0 and unconditionally emits `disconnected`; the
handler's `disconnected` listener broadcasts the resulting error notice, so
it reaches every registered session whose socket is open and accepts the
write. -/
theorem C10_disconnect_always_notifies :
    (∀ s : ClientState,
       (disconnect s).events = [UpEvent.disconnectedClean] ∧
       (disconnect s).state.pingTimerSet = false ∧
       (disconnect s).state.reconnectTimerSet = false ∧
       (disconnect s).state.connectionTimerSet = false ∧
       (disconnect s).state.reconnectAttempts = 0 ∧
       (disconnect (disconnect s).state).events = [UpEvent.disconnectedClean]) ∧
    (∀ cfg : ESP8266Config,
       (disconnect (initState cfg)).events = [UpEvent.disconnectedClean]) ∧
    (∀ ps : ProxyState, ∀ now : Nat, ∀ cid : String, ∀ sess : Session,
       findSess ps.clients cid = some sess →
       sess.socketOpen = true → sess.sendFails = false →
       (cid, WireMsg.errNote "ESP8266 disconnected" now) ∈
         (onEspDisconnected ps now).delivered) := by
  refine ⟨?_, ?_, ?_⟩
  · intro s
    exact ⟨rfl, rfl, rfl, rfl, rfl, rfl⟩
  · intro cfg
    rfl
  · intro ps now cid sess hmem hopen hok
    unfold onEspDisconnected
    rw [broadcast_delivered]
    refine List.mem_map.mpr ⟨(cid, sess), ?_, rfl⟩
    rw [List.mem_filter]
    refine ⟨findSess_mem _ _ _ hmem, ?_⟩
    unfold liveSess
    rw [hopen, hok]
    rfl

/-- witness for C10: the disconnected notice reaches session B of the
two-session fixture -/
theorem C10_disconnect_always_notifies_witness :
    findSess psAB.clients "B" = some (openSess "B") ∧
    ("B", WireMsg.errNote "ESP8266 disconnected" 4) ∈
      (onEspDisconnected psAB 4).delivered :=
  ⟨by decide,
   C10_disconnect_always_notifies.2.2 psAB 4 "B" (openSess "B")
     (by decide) (by decide) (by decide)⟩

end Floyd
